import Mathlib

/-!
Verification of the PDF splitting worker (`src/pdfProcess/pdf_splitting_worker.py`
and `src/pdfProcess/config.py`) against its natural-language specification.

The development shallowly embeds the worker's partition arithmetic, the
orchestration flow of `handle_pdf_splitting_request` /
`_process_pdf_splitting_async`, and the retry loop of `download_pdf_from_s3`.
Machine integers are modelled as `Int` (Python integers are unbounded);
Python's `//` floor division is `Int.fdiv`; exceptions are modelled with
`Except` / an explicit error type; message-queue and filesystem side effects
are recorded as an explicit event trace.
-/

namespace PdfWorker

/-- Python runtime errors that the worker's code paths can raise.
`zeroDivision` models `ZeroDivisionError`, `unboundLocal` models
`UnboundLocalError`/`NameError` (a local variable read before assignment),
`indexError` models `IndexError`, `attrError` models `AttributeError`,
`downloadFailed` models the exception raised when the S3 download fails. -/
inductive PyError
  | zeroDivision
  | unboundLocal
  | indexError
  | attrError
  | downloadFailed
  deriving DecidableEq, Repr

/-- One entry of the `parts` list built by `PDFSplitter.split_pdf`
(`pdf_splitting_worker.py` lines 404-413): `part_index` is 0-based,
`start_page`/`end_page` are 1-based inclusive, `page_count = end_page - start_page`
where the subtracted `start_page` is the 0-based one (line 408). -/
structure PartRange where
  partIndex : ℤ
  startPage : ℤ
  endPage : ℤ
  pageCount : ℤ
  deriving DecidableEq, Repr

/-- `total_parts = (total_pages + split_size - 1) // split_size`
(`pdf_splitting_worker.py` line 345); Python `//` is floor division. -/
def totalPartsZ (totalPages splitSize : ℤ) : ℤ :=
  (totalPages + splitSize - 1).fdiv splitSize

/-- The part built in iteration `i` of the loop in `PDFSplitter.split_pdf`
(lines 367-368 and 404-413): 0-based `start_page = i * split_size`,
`end_page = min ((i+1) * split_size) total_pages`, recorded 1-based start is
`start_page + 1`. -/
def mkPart (totalPages splitSize : ℤ) (i : ℕ) : PartRange :=
  { partIndex := i
    startPage := i * splitSize + 1
    endPage := min ((i + 1) * splitSize) totalPages
    pageCount := min ((i + 1) * splitSize) totalPages - i * splitSize }

/-- The full parts list computed by `PDFSplitter.split_pdf`'s range loop
(`for part_index in range(total_parts)`, line 355); Python's `range` of a
non-positive bound is empty, matching `Int.toNat`. -/
def partsFor (totalPages splitSize : ℤ) : List PartRange :=
  (List.range (totalPartsZ totalPages splitSize).toNat).map (mkPart totalPages splitSize)

/-- Behaviour of `PDFSplitter.split_pdf` (lines 341-479) as a function of the
actual page count, the split size and whether a progress callback was passed.
Line 345 raises `ZeroDivisionError` when `split_size = 0`. When a progress
callback is supplied and at least one loop iteration runs, the first callback
invocation (lines 358-364) evaluates the message f-string, which reads
`start_page` and `end_page` before they are assigned (they are assigned only
at lines 367-368), raising `UnboundLocalError`. Otherwise the parts list of
`partsFor` is returned. -/
def splitPdfRun (totalPages splitSize : ℤ) (hasCallback : Bool) :
    Except PyError (List PartRange) :=
  if splitSize = 0 then .error .zeroDivision
  else if hasCallback ∧ 0 < totalPartsZ totalPages splitSize then .error .unboundLocal
  else .ok (partsFor totalPages splitSize)

/-- An inbound `SplitRequest` message as read by the worker with
`message.get(...)`: fields the handler may find absent are `Option`. -/
structure SplitMsg where
  messageId : String
  itemId : String
  s3Url : String
  fileName : String
  pageCount : Option ℤ := none
  splitSize : Option ℤ := none
  retryCount : Option ℤ := none
  maxRetries : Option ℤ := none
  deriving DecidableEq, Repr

/-- `split_size = message.get('splitSize', 25)` (line 1128). -/
def splitSizeUsed (m : SplitMsg) : ℤ := m.splitSize.getD 25

/-- `retry_count = message.get('retryCount', 0)` (lines 982 and 1238). -/
def retryCountOf (m : SplitMsg) : ℤ := m.retryCount.getD 0

/-- `max_retries = message.get('maxRetries', 3)` (lines 983 and 1239). -/
def maxRetriesOf (m : SplitMsg) : ℤ := m.maxRetries.getD 3

/-- `should_retry = retry_count < max_retries` (lines 984 and 1240). -/
def shouldRetry (m : SplitMsg) : Bool := retryCountOf m < maxRetriesOf m

/-- The republished retry request (lines 995-1000 and 1251-1256): a clone of
the original message with a fresh `messageId` and `retryCount` incremented
from the original's (defaulted) value. -/
def retryClone (m : SplitMsg) (freshId : String) : SplitMsg :=
  { m with messageId := freshId, retryCount := some (retryCountOf m + 1) }

/-- Iterated application-level retry: the message obtained after `k` rounds of
fail-and-republish starting from `m`. -/
def retryIter (fresh : ℕ → String) : ℕ → SplitMsg → SplitMsg
  | 0, m => m
  | k + 1, m => retryClone (retryIter fresh k m) (fresh k)

/-- Progress statuses published by `update_item_status`
(the `MessageTypes` constants). -/
inductive Status
  | pending
  | processing
  | completed
  | failed
  | analyzing
  | splitting
  deriving DecidableEq, Repr

/-- Observable actions of one delivery's handling, in program order:
queue publishes, broker ack/nack, temp-directory lifecycle, and the
invocation of `PDFSplitter.split_pdf` with the split size actually passed. -/
inductive Ev
  | mkTempDir
  | rmTempDir
  | progress (itemId : String) (status : Status)
  | splitInvoked (splitSize : ℤ)
  | partRequest (itemId : String) (partIndex : ℤ)
  | retryPublish (freshId : String) (newRetryCount : ℤ)
  | ack
  | nack (requeue : Bool)
  deriving DecidableEq, Repr

/-- Environment of one processing run: whether `download_pdf_from_s3`
succeeds, and the page count of the downloaded document. -/
structure Env where
  downloadOk : Bool
  actualPages : ℤ
  deriving DecidableEq, Repr

/-- Behaviour of `upload_parts_to_s3` (lines 1556-1666) when invoked from
`_process_pdf_splitting_async` with the progress-callback lambda of line 1152.
With at least one part, the first loop iteration calls the callback with
keyword arguments only (lines 1574-1580); the lambda evaluates `args[0]` on an
empty `args` tuple, raising `IndexError` before any upload happens. With no
parts the loop body never runs and the empty list is returned. -/
def uploadPartsRun (parts : List PartRange) : List Ev × Except PyError Unit :=
  if parts.isEmpty then ([], .ok ()) else ([], .error .indexError)

/-- Behaviour of `send_part_conversion_requests` (lines 1668-1793) when
invoked from `_process_pdf_splitting_async` with the progress-callback lambda
of line 1180. With at least one part, the first batch calls the callback with
keyword arguments only (lines 1690-1696), so the lambda's `args[0]` raises
`IndexError` before any conversion request is published. With zero parts the
loop is skipped and the closing log statement (line 1791) computes
`total_request_time / total_parts`, raising `ZeroDivisionError`. -/
def sendPartReqsRun (parts : List PartRange) : List Ev × Except PyError Unit :=
  if parts.isEmpty then ([], .error .zeroDivision) else ([], .error .indexError)

/-- The inner `try` block of `_process_pdf_splitting_async` (lines 1055-1190):
download, the `splitting` status update (line 1121), the `split_pdf` call with
the progress-callback lambda (line 1136), the part uploads (line 1152), the
`processing` status update (line 1167) and the conversion-request dispatch
(line 1180). Returns the events it emitted and its outcome. -/
def innerTry (m : SplitMsg) (env : Env) : List Ev × Except PyError Unit :=
  if ¬ env.downloadOk then ([], .error .downloadFailed)
  else
    let evs1 : List Ev := [.progress m.itemId .splitting, .splitInvoked (splitSizeUsed m)]
    match splitPdfRun env.actualPages (splitSizeUsed m) true with
    | .error e => (evs1, .error e)
    | .ok parts =>
      match uploadPartsRun parts with
      | (uevs, .error e) => (evs1 ++ uevs, .error e)
      | (uevs, .ok _) =>
        let evs2 := evs1 ++ uevs ++ [.progress m.itemId .processing]
        match sendPartReqsRun parts with
        | (sevs, .error e) => (evs2 ++ sevs, .error e)
        | (sevs, .ok _) => (evs2 ++ sevs, .ok ())

/-- The failure-handling sequence of `_process_pdf_splitting_async`: publish a
`failed` progress event (lines 1230-1235), republish a retry clone when
`retryCount < maxRetries` (lines 1237-1267), and negative-acknowledge with
`requeue=False` (lines 1276-1282). The identical block at lines 1284-1320
repeats the same sequence. -/
def failureHandling (m : SplitMsg) (freshId : String) : List Ev :=
  [.progress m.itemId .failed]
    ++ (if shouldRetry m then [.retryPublish freshId (retryCountOf m + 1)] else [])
    ++ [.nack false]

/-- Trace and outcome of `_process_pdf_splitting_async` (lines 1031-1320).
The temp directory is created at line 1047 and removed by the `finally` block
(lines 1192-1207) on every exit of the inner `try`. On an inner success the
message is acknowledged (line 1215) and then the unconditional tail block
(lines 1284-1320) reads `error_message`, which was never assigned on this
path, raising `NameError`; on an inner failure the `except` block
(lines 1217-1282) runs, the tail block (lines 1284-1320) runs the same
failure handling a second time, and the coroutine returns normally. -/
def processAsync (m : SplitMsg) (env : Env) (fresh1 fresh2 : String) :
    List Ev × Except PyError Unit :=
  let inner := innerTry m env
  let evs := Ev.mkTempDir :: (inner.1 ++ [Ev.rmTempDir])
  match inner.2 with
  | .ok _ => (evs ++ [.ack], .error .unboundLocal)
  | .error _ => (evs ++ failureHandling m fresh1 ++ failureHandling m fresh2, .ok ())

/-- The `process_with_ack` coroutine of the handler's running-event-loop
branch (lines 847-871): run `_process_pdf_splitting_async`; if it returns,
acknowledge the message (line 856); if it raises, negative-acknowledge with
`requeue=False` (line 866). -/
def processWithAck (m : SplitMsg) (env : Env) (fresh1 fresh2 : String) : List Ev :=
  let run := processAsync m env fresh1 fresh2
  match run.2 with
  | .ok _ => run.1 ++ [.ack]
  | .error _ => run.1 ++ [.nack false]

/-- Trace of `handle_pdf_splitting_request` (lines 794-1029) for one delivery.
`parsed = none` models a body `json.loads` cannot decode (line 800): control
jumps to the outer `except` (line 953), `item_id` becomes `'unknown'`
(line 956), `update_item_status` publishes a `failed` progress event for it
(lines 968-973), the retry block is skipped because `message` is not in
`locals()` (line 981), and the delivery is negative-acknowledged with
`requeue=False` (line 1024). For a decodable body, the context-detection log
call (line 831) evaluates `asyncio.current_thread()`, an attribute that does
not exist in `asyncio`, raising `AttributeError` inside the inner `try`
(line 827); the `except` at line 936 negative-acknowledges (line 945) and
re-raises (line 951); the outer `except` then publishes a `failed` progress
event, republishes a retry clone when `retryCount < maxRetries`
(lines 981-1017), and negative-acknowledges again (line 1024).
`_process_pdf_splitting_async` is never reached. -/
def handleRequest (parsed : Option SplitMsg) (freshId : String) : List Ev :=
  match parsed with
  | none => [.progress "unknown" .failed, .nack false]
  | some m =>
    [.nack false, .progress m.itemId .failed]
      ++ (if shouldRetry m then [.retryPublish freshId (retryCountOf m + 1)] else [])
      ++ [.nack false]

/-- Outcome of one HTTP attempt inside `download_pdf_from_s3`: a 200 response,
a non-200 response with its status code, a timeout, or another network error. -/
inductive DlOutcome
  | ok200
  | httpErr (code : ℤ)
  | timeout
  | netErr
  deriving DecidableEq, Repr

/-- Result of the download retry loop: how many HTTP attempts were made, the
backoff delays slept between attempts (in seconds), and whether the download
succeeded. -/
structure DlResult where
  attempts : ℕ
  sleeps : List ℕ
  success : Bool
  deriving DecidableEq, Repr

/-- The retry loop of `download_pdf_from_s3` (lines 1370-1522):
`max_retries = 3`, `retry_delay = 1`; a 200 response succeeds and breaks
(lines 1397-1441); a non-200 response raises (line 1462) and is caught by the
generic `except` (line 1493), which — like the timeout `except` (line 1464) —
sleeps `retry_delay`, doubles it and continues while `attempt < max_retries - 1`,
and re-raises on the last attempt. `fuel` is the number of loop iterations
remaining. -/
def dlAux (env : ℕ → DlOutcome) : ℕ → ℕ → ℕ → List ℕ → DlResult
  | 0, attempt, _, slept => ⟨attempt, slept, false⟩
  | fuel + 1, attempt, delay, slept =>
    match env attempt with
    | .ok200 => ⟨attempt + 1, slept, true⟩
    | _ =>
      if fuel = 0 then ⟨attempt + 1, slept, false⟩
      else dlAux env fuel (attempt + 1) (delay * 2) (slept ++ [delay])

/-- `download_pdf_from_s3`'s whole retry loop: 3 attempts, starting delay 1. -/
def downloadRun (env : ℕ → DlOutcome) : DlResult :=
  dlAux env 3 0 1 []

/-- Trace predicate: the event is a retry republish to `pdf-splitting-request`. -/
def isRetryPublish : Ev → Bool
  | .retryPublish _ _ => true
  | _ => false

/-- Trace predicate: the event is a publish to `pdf-part-conversion-request`. -/
def isPartRequest : Ev → Bool
  | .partRequest _ _ => true
  | _ => false

/-- Trace predicate: the event is a progress publish to `pdf-conversion-progress`. -/
def isProgressEv : Ev → Bool
  | .progress _ _ => true
  | _ => false

/-- Trace predicate: the event is a broker acknowledgement. -/
def isAckEv : Ev → Bool
  | .ack => true
  | _ => false

/-- C2: the claim says a post-Received failure publishes exactly one retry
clone (for `retryCount < maxRetries`) and one negative acknowledgement.
Evaluating `_process_pdf_splitting_async` on a request with `retryCount = 1`,
`maxRetries = 3` whose download fails shows the failure handling runs twice
(the `except` block of lines 1217-1282 and its verbatim copy at
lines 1284-1320): two retry clones with `retryCount = 2` are published and
the message is negative-acknowledged twice, after which the coroutine returns
normally. -/
theorem retry_republished_twice_on_failure :
    (processAsync ⟨"orig-c2", "item-c2", "url", "doc.pdf", some 40, some 10, some 1, some 3⟩
        ⟨false, 0⟩ "fresh-a" "fresh-b").1 =
      [.mkTempDir, .rmTempDir,
       .progress "item-c2" .failed, .retryPublish "fresh-a" 2, .nack false,
       .progress "item-c2" .failed, .retryPublish "fresh-b" 2, .nack false] ∧
    ((processAsync ⟨"orig-c2", "item-c2", "url", "doc.pdf", some 40, some 10, some 1, some 3⟩
        ⟨false, 0⟩ "fresh-a" "fresh-b").1.countP isRetryPublish) = 2 :=
  ⟨rfl, rfl⟩

/-- C3: the claim's 15-page, partSize-5 scenario cannot happen: the progress
callback passed to `PDFSplitter.split_pdf` makes its first invocation read
`start_page`/`end_page` before assignment (`UnboundLocalError`), so the run
produces no parts, publishes no conversion requests and no completed status;
the duplicated failure tail then nacks twice and returns, after which
`process_with_ack` acknowledges the failed request. -/
theorem fifteen_page_scenario_fails :
    splitPdfRun 15 5 true = .error .unboundLocal ∧
    processWithAck ⟨"orig-c3", "item-c3", "url", "doc.pdf", some 15, some 5, some 0, some 3⟩
        ⟨true, 15⟩ "fresh-a" "fresh-b" =
      [.mkTempDir, .progress "item-c3" .splitting, .splitInvoked 5, .rmTempDir,
       .progress "item-c3" .failed, .retryPublish "fresh-a" 1, .nack false,
       .progress "item-c3" .failed, .retryPublish "fresh-b" 1, .nack false, .ack] ∧
    ((processWithAck ⟨"orig-c3", "item-c3", "url", "doc.pdf", some 15, some 5, some 0, some 3⟩
        ⟨true, 15⟩ "fresh-a" "fresh-b").countP isPartRequest) = 0 ∧
    ((processWithAck ⟨"orig-c3", "item-c3", "url", "doc.pdf", some 15, some 5, some 0, some 3⟩
        ⟨true, 15⟩ "fresh-a" "fresh-b").countP
          fun e => e = .progress "item-c3" .completed) = 0 :=
  ⟨rfl, rfl, rfl, rfl⟩

/-- C4 counterexample: a request carrying `splitSize = 5` reaches
`PDFSplitter.split_pdf` with split size 5, which is outside `[10, 100]`:
no clamping to `[MIN_SPLIT_SIZE, MAX_SPLIT_SIZE]` happens. -/
theorem split_size_not_clamped_cex :
    Ev.splitInvoked 5 ∈
      (processAsync ⟨"orig-c4", "item-c4", "url", "doc.pdf", some 60, some 5, some 0, some 3⟩
        ⟨true, 60⟩ "fresh-a" "fresh-b").1 ∧
    ¬ (10 ≤ (5 : ℤ) ∧ (5 : ℤ) ≤ 100) :=
  ⟨by decide, by decide⟩

/-- C5: the claim (and the repository's own edge-case tests) say the splitter
rejects `pageCount <= 0` and `partSize <= 0`. `PDFSplitter.split_pdf` has no
validation: a zero page count or a negative split size silently yields an
empty parts list, and a zero split size fails with `ZeroDivisionError`
(line 345), not a validation error. -/
theorem invalid_inputs_not_rejected :
    splitPdfRun 0 5 false = .ok [] ∧
    splitPdfRun 10 (-1) false = .ok [] ∧
    splitPdfRun 10 0 false = .error .zeroDivision :=
  ⟨rfl, rfl, rfl⟩

/-- C6 counterexample: on a malformed (undecodable) body the outer `except`
block of `handle_pdf_splitting_request` calls `update_item_status` with
`item_id = 'unknown'` (lines 956, 968-973), publishing a `failed` progress
event for a non-existent item — contradicting the claim that no progress
event is published. -/
theorem malformed_body_progress_published_cex :
    Ev.progress "unknown" .failed ∈ handleRequest none "fresh" := by
  decide

/-- C6 amended: a malformed body is negative-acknowledged with
`requeue=False`, no retry message is published, the message is never
acknowledged, but exactly one `failed` progress event with
`itemId = 'unknown'` is published. -/
theorem malformed_body_trace (freshId : String) :
    handleRequest none freshId = [.progress "unknown" .failed, .nack false] ∧
    (handleRequest none freshId).countP isRetryPublish = 0 ∧
    Ev.nack false ∈ handleRequest none freshId ∧
    (handleRequest none freshId).countP isAckEv = 0 ∧
    (handleRequest none freshId).countP isProgressEv = 1 :=
  ⟨rfl, rfl, by simp [handleRequest], rfl, rfl⟩

/-- C7: the claim says the inbound message is never acknowledged before all
part conversion requests are published. On a failed run (here: the download
fails) `_process_pdf_splitting_async` handles the failure internally and
returns normally, so `process_with_ack` (line 856) acknowledges the message:
the trace ends in an acknowledgement although zero part conversion requests
were published. -/
theorem ack_after_failed_processing :
    processWithAck ⟨"orig-c7", "item-c7", "url", "doc.pdf", some 30, some 10, some 0, some 3⟩
        ⟨false, 0⟩ "fresh-a" "fresh-b" =
      [.mkTempDir, .rmTempDir,
       .progress "item-c7" .failed, .retryPublish "fresh-a" 1, .nack false,
       .progress "item-c7" .failed, .retryPublish "fresh-b" 1, .nack false, .ack] ∧
    ((processWithAck ⟨"orig-c7", "item-c7", "url", "doc.pdf", some 30, some 10, some 0, some 3⟩
        ⟨false, 0⟩ "fresh-a" "fresh-b").countP isPartRequest) = 0 ∧
    (processWithAck ⟨"orig-c7", "item-c7", "url", "doc.pdf", some 30, some 10, some 0, some 3⟩
        ⟨false, 0⟩ "fresh-a" "fresh-b").getLast? = some .ack :=
  ⟨rfl, rfl, rfl⟩

/-- C8 counterexample: the claim says a non-2xx HTTP response that is not an
explicitly retryable code fails immediately with no further attempts. A
permanent HTTP 404 is retried: the generic `except` at line 1493 catches the
exception raised at line 1462 and the loop makes all 3 attempts, sleeping
1 s and 2 s in between. -/
theorem non2xx_fails_immediately_cex :
    downloadRun (fun _ => .httpErr 404) = ⟨3, [1, 2], false⟩ ∧
    (downloadRun (fun _ => .httpErr 404)).attempts ≠ 1 :=
  ⟨rfl, by decide⟩

/-- C8 amended: every outcome — timeout, transient network error, or non-200
HTTP response — is retried alike: at most 3 attempts are made, the backoff
delays slept are the doubling prefix of `[1, 2]`, and the download succeeds
exactly when one of the first three attempts returns HTTP 200. -/
theorem download_retry_bounded (env : ℕ → DlOutcome) :
    (downloadRun env).attempts ≤ 3 ∧
    (downloadRun env).sleeps = List.take ((downloadRun env).attempts - 1) [1, 2] ∧
    ((downloadRun env).success = true ↔
      (env 0 = .ok200 ∨ env 1 = .ok200 ∨ env 2 = .ok200)) := by
  cases h0 : env 0 <;> cases h1 : env 1 <;> cases h2 : env 2 <;>
    simp [downloadRun, dlAux, h0, h1, h2]

/-- C4 amended: the worker performs no clamping at all — whenever
`PDFSplitter.split_pdf` is invoked during processing, the split size passed
to it is exactly the message's `splitSize` (default 25), whatever its value. -/
theorem split_size_passthrough (m : SplitMsg) (env : Env) (f1 f2 : String) (s : ℤ)
    (h : Ev.splitInvoked s ∈ (processAsync m env f1 f2).1) :
    s = m.splitSize.getD 25 := by
  obtain ⟨d, ap⟩ := env
  cases d with
  | false =>
    cases hs : shouldRetry m <;>
      simp [processAsync, innerTry, failureHandling, hs] at h
  | true =>
    cases hsp : splitPdfRun ap (m.splitSize.getD 25) true with
    | error e =>
      cases hs : shouldRetry m <;>
        simp [processAsync, innerTry, failureHandling, splitSizeUsed, hsp, hs] at h <;>
        exact h
    | ok parts =>
      by_cases hpe : parts.isEmpty <;>
        cases hs : shouldRetry m <;>
          simp [processAsync, innerTry, failureHandling, splitSizeUsed, hsp, hs,
            uploadPartsRun, sendPartReqsRun, hpe] at h <;>
          exact h

/-- Witness for C4 amended: a request with `splitSize = 5` invokes the
splitter with size 5, and `5` is this message's `splitSize.getD 25`. -/
theorem split_size_passthrough_witness :
    Ev.splitInvoked 5 ∈
      (processAsync ⟨"orig-c4w", "item-c4w", "url", "doc.pdf", some 60, some 5, some 0, some 3⟩
        ⟨true, 60⟩ "fresh-a" "fresh-b").1 ∧
    (5 : ℤ) = (Option.getD (some 5) 25 : ℤ) :=
  ⟨by decide,
    split_size_passthrough
      ⟨"orig-c4w", "item-c4w", "url", "doc.pdf", some 60, some 5, some 0, some 3⟩
      ⟨true, 60⟩ "fresh-a" "fresh-b" 5 (by decide)⟩

/-- The inner `try` block of `_process_pdf_splitting_async` never touches the
temp-directory lifecycle itself: creation and removal happen only outside it. -/
theorem innerTry_no_temp_events (m : SplitMsg) (env : Env) :
    Ev.mkTempDir ∉ (innerTry m env).1 ∧ Ev.rmTempDir ∉ (innerTry m env).1 := by
  obtain ⟨d, ap⟩ := env
  cases d with
  | false => simp [innerTry]
  | true =>
    cases hsp : splitPdfRun ap (m.splitSize.getD 25) true with
    | error e => simp [innerTry, splitSizeUsed, hsp]
    | ok parts =>
      by_cases hpe : parts.isEmpty <;>
        simp [innerTry, splitSizeUsed, hsp, uploadPartsRun, sendPartReqsRun, hpe]

/-- C9: on every run of `_process_pdf_splitting_async` — success or failure
at any stage — the temporary directory created at line 1047 is removed
exactly once by the `finally` block (lines 1192-1207), before any of the
remaining handling of the delivery. -/
theorem temp_dir_always_cleaned (m : SplitMsg) (env : Env) (f1 f2 : String) :
    ∃ mid post,
      (processAsync m env f1 f2).1 = .mkTempDir :: (mid ++ .rmTempDir :: post) ∧
      Ev.mkTempDir ∉ mid ∧ Ev.rmTempDir ∉ mid ∧
      Ev.mkTempDir ∉ post ∧ Ev.rmTempDir ∉ post := by
  obtain ⟨hmk, hrm⟩ := innerTry_no_temp_events m env
  cases hres : (innerTry m env).2 with
  | ok u =>
    refine ⟨(innerTry m env).1, [.ack], ?_, hmk, hrm, by simp, by simp⟩
    simp [processAsync, hres]
  | error e =>
    refine ⟨(innerTry m env).1, failureHandling m f1 ++ failureHandling m f2,
      ?_, hmk, hrm, ?_, ?_⟩
    · simp [processAsync, hres]
    · cases hs : shouldRetry m <;> simp [failureHandling, hs]
    · cases hs : shouldRetry m <;> simp [failureHandling, hs]

/-- Field bookkeeping of iterated retry clones: each round increments the
(defaulted) `retryCount` by one and leaves `maxRetries` untouched. -/
theorem retryIter_fields (fresh : ℕ → String) (m : SplitMsg) (k : ℕ) :
    retryCountOf (retryIter fresh k m) = retryCountOf m + k ∧
    (retryIter fresh k m).maxRetries = m.maxRetries := by
  induction k with
  | zero => simp [retryIter]
  | succ k ih =>
    obtain ⟨h1, h2⟩ := ih
    refine ⟨?_, by simp [retryIter, retryClone, h2]⟩
    have hstep : retryCountOf (retryClone (retryIter fresh k m) (fresh k))
        = retryCountOf (retryIter fresh k m) + 1 := by
      simp [retryClone, retryCountOf]
    rw [retryIter, hstep, h1]
    push_cast
    ring

/-- C10: a valid-JSON request carrying none of the optional numeric fields is
not rejected: the split size used is the default 25, the failure-handling
retry decision reads `retryCount` as 0 and `maxRetries` as 3, and the chain
of fail-and-republish rounds allows exactly 3 retries (`shouldRetry` holds
for the first three generations and fails from the fourth on). -/
theorem absent_fields_defaults (m : SplitMsg) (fresh : ℕ → String)
    (h1 : m.splitSize = none) (h2 : m.retryCount = none) (h3 : m.maxRetries = none) :
    splitSizeUsed m = 25 ∧ retryCountOf m = 0 ∧ maxRetriesOf m = 3 ∧
    ∀ k : ℕ, (shouldRetry (retryIter fresh k m) = true ↔ k < 3) := by
  refine ⟨by simp [splitSizeUsed, h1], by simp [retryCountOf, h2],
    by simp [maxRetriesOf, h3], ?_⟩
  intro k
  obtain ⟨hc, hm⟩ := retryIter_fields fresh m k
  have hc0 : retryCountOf m = 0 := by simp [retryCountOf, h2]
  have hm3 : maxRetriesOf (retryIter fresh k m) = 3 := by simp [maxRetriesOf, hm, h3]
  simp only [shouldRetry, decide_eq_true_eq, hc, hc0, hm3]
  omega

/-- Witness for C10: a concrete request with all optional numeric fields
absent defaults to split size 25, is still retryable after 2 republish
rounds, and is no longer retryable after 3. -/
theorem absent_fields_defaults_witness :
    splitSizeUsed ⟨"m-id", "item-c10", "url", "f.pdf", none, none, none, none⟩ = 25 ∧
    shouldRetry (retryIter (fun _ => "fresh") 2
      ⟨"m-id", "item-c10", "url", "f.pdf", none, none, none, none⟩) = true ∧
    ¬ shouldRetry (retryIter (fun _ => "fresh") 3
      ⟨"m-id", "item-c10", "url", "f.pdf", none, none, none, none⟩) = true := by
  have h := absent_fields_defaults
    ⟨"m-id", "item-c10", "url", "f.pdf", none, none, none, none⟩
    (fun _ => "fresh") rfl rfl rfl
  exact ⟨h.1, (h.2.2.2 2).mpr (by decide),
    fun hc => absurd ((h.2.2.2 3).mp hc) (by decide)⟩

/-- Unfolding of list indexing into the parts list. -/
theorem partsFor_get (p s : ℤ) (i : ℕ) (h : i < (partsFor p s).length) :
    (partsFor p s).get ⟨i, h⟩ = mkPart p s i := by
  simp [partsFor, List.get_eq_getElem]

/-- Number of parts. -/
theorem partsFor_length (p s : ℤ) :
    (partsFor p s).length = (totalPartsZ p s).toNat := by
  simp [partsFor]

/-- For a positive page count and a split size of at least 1, the part count
`(p + s - 1) // s` is the ceiling of `p / s`: it is positive and is the least
integer `n` with `p ≤ n * s`. -/
theorem totalParts_bounds (p s : ℤ) (hp : 0 < p) (hs : 1 ≤ s) :
    p ≤ totalPartsZ p s * s ∧ (totalPartsZ p s - 1) * s < p ∧ 0 < totalPartsZ p s := by
  have hs0 : (0 : ℤ) < s := by linarith
  have hfd : totalPartsZ p s = (p + s - 1) / s :=
    Int.fdiv_eq_ediv _ (le_of_lt hs0)
  have hdm : s * ((p + s - 1) / s) + (p + s - 1) % s = p + s - 1 :=
    Int.ediv_add_emod _ _
  have hr0 : 0 ≤ (p + s - 1) % s := Int.emod_nonneg _ (by linarith)
  have hrs : (p + s - 1) % s < s := Int.emod_lt_of_pos _ hs0
  have hcomm : ((p + s - 1) / s) * s = s * ((p + s - 1) / s) := mul_comm _ _
  have h1 : p ≤ totalPartsZ p s * s := by
    rw [hfd, hcomm]; linarith
  have h2 : (totalPartsZ p s - 1) * s < p := by
    rw [hfd]
    have : ((p + s - 1) / s - 1) * s = s * ((p + s - 1) / s) - s := by ring
    rw [this]; linarith
  refine ⟨h1, h2, ?_⟩
  by_contra hq0
  push_neg at hq0
  have : totalPartsZ p s * s ≤ 0 * s :=
    mul_le_mul_of_nonneg_right hq0 (le_of_lt hs0)
  simp at this
  linarith

/-- C1: for every `pageCount > 0` and `partSize >= 1`, the range computation
of `PDFSplitter.split_pdf` produces exactly `ceil(pageCount / partSize)`
parts (the part count `n` is the least integer with `pageCount <= n * partSize`);
part `i` covers pages `[i * partSize + 1, min ((i+1) * partSize) pageCount]`
inclusive with its recorded `pageCount` equal to `endPage - startPage + 1`;
the parts are nonempty, start at page 1, end at `pageCount`, are contiguous
and non-overlapping, and their page counts sum to `pageCount`. -/
theorem partitioner_correct (p s : ℤ) (hp : 0 < p) (hs : 1 ≤ s) :
    0 < (partsFor p s).length ∧
    ((partsFor p s).length : ℤ) = totalPartsZ p s ∧
    (totalPartsZ p s - 1) * s < p ∧ p ≤ totalPartsZ p s * s ∧
    (∀ i : ℕ, ∀ h : i < (partsFor p s).length,
      ((partsFor p s).get ⟨i, h⟩).partIndex = (i : ℤ) ∧
      ((partsFor p s).get ⟨i, h⟩).startPage = (i : ℤ) * s + 1 ∧
      ((partsFor p s).get ⟨i, h⟩).endPage = min (((i : ℤ) + 1) * s) p ∧
      ((partsFor p s).get ⟨i, h⟩).pageCount =
        ((partsFor p s).get ⟨i, h⟩).endPage - ((partsFor p s).get ⟨i, h⟩).startPage + 1 ∧
      ((partsFor p s).get ⟨i, h⟩).startPage ≤ ((partsFor p s).get ⟨i, h⟩).endPage) ∧
    ((partsFor p s).head?.map PartRange.startPage = some 1) ∧
    ((partsFor p s).getLast?.map PartRange.endPage = some p) ∧
    (∀ i : ℕ, ∀ h : i + 1 < (partsFor p s).length,
      ((partsFor p s).get ⟨i + 1, h⟩).startPage
        = ((partsFor p s).get ⟨i, Nat.lt_of_succ_lt h⟩).endPage + 1) ∧
    (∀ i j : ℕ, ∀ hi : i < (partsFor p s).length, ∀ hj : j < (partsFor p s).length,
      i < j → ((partsFor p s).get ⟨i, hi⟩).endPage < ((partsFor p s).get ⟨j, hj⟩).startPage) ∧
    ((partsFor p s).map PartRange.pageCount).sum = p := by
  have hs0 : (0 : ℤ) < s := by linarith
  obtain ⟨hple, hlt, hpos⟩ := totalParts_bounds p s hp hs
  have hlen : (partsFor p s).length = (totalPartsZ p s).toNat := partsFor_length p s
  have hlenZ : ((partsFor p s).length : ℤ) = totalPartsZ p s := by
    rw [hlen]; exact Int.toNat_of_nonneg (le_of_lt hpos)
  have hlen0 : 0 < (partsFor p s).length := by omega
  -- every index below the length has its 0-based start strictly below p
  have hkey : ∀ i : ℕ, (i : ℤ) < totalPartsZ p s → (i : ℤ) * s < p := by
    intro i hiZ
    have hle : (i : ℤ) ≤ totalPartsZ p s - 1 := by linarith
    have hmul : (i : ℤ) * s ≤ (totalPartsZ p s - 1) * s :=
      mul_le_mul_of_nonneg_right hle (le_of_lt hs0)
    linarith
  have hidx : ∀ i : ℕ, i < (partsFor p s).length → (i : ℤ) < totalPartsZ p s := by
    intro i hi
    rw [← hlenZ]
    exact_mod_cast hi
  constructor
  · exact hlen0
  refine ⟨hlenZ, hlt, hple, ?_, ?_, ?_, ?_, ?_, ?_⟩
  · intro i h
    rw [partsFor_get]
    have hstart : (i : ℤ) * s < p := hkey i (hidx i h)
    refine ⟨rfl, rfl, rfl, by simp [mkPart]; ring, ?_⟩
    simp only [mkPart]
    refine le_min ?_ (by linarith)
    have : ((i : ℤ) + 1) * s = (i : ℤ) * s + s := by ring
    rw [this]; linarith
  · -- first part starts at page 1
    have hne : partsFor p s ≠ [] := List.length_pos.mp hlen0
    rw [List.head?_eq_head hne]
    have h0 : (partsFor p s).head hne = (partsFor p s).get ⟨0, hlen0⟩ := by
      rw [List.head_eq_getElem, List.get_eq_getElem]
    rw [h0, partsFor_get]
    simp [mkPart]
  · -- last part ends at page p
    have hne : partsFor p s ≠ [] := List.length_pos.mp hlen0
    rw [List.getLast?_eq_getLast _ hne, List.getLast_eq_getElem]
    have hgl : (partsFor p s)[(partsFor p s).length - 1]
        = mkPart p s ((partsFor p s).length - 1) := by
      have h := partsFor_get p s ((partsFor p s).length - 1) (by omega)
      simpa [List.get_eq_getElem] using h
    rw [hgl]
    have hcast : (((partsFor p s).length - 1 : ℕ) : ℤ) + 1 = totalPartsZ p s := by
      have h1le : 1 ≤ (partsFor p s).length := hlen0
      push_cast [h1le]
      omega
    simp only [mkPart, hcast]
    rw [min_eq_right hple]
    rfl
  · -- contiguity
    intro i h
    rw [partsFor_get, partsFor_get]
    have hi1 : ((i : ℤ) + 1) < totalPartsZ p s := by
      have := hidx (i + 1) h
      push_cast at this
      linarith
    have : ((i : ℤ) + 1) * s ≤ (totalPartsZ p s - 1) * s :=
      mul_le_mul_of_nonneg_right (by linarith) (le_of_lt hs0)
    simp only [mkPart]
    rw [min_eq_left (by linarith)]
    push_cast
    ring
  · -- non-overlap
    intro i j hi hj hij
    rw [partsFor_get, partsFor_get]
    simp only [mkPart]
    have hij1 : (i : ℤ) + 1 ≤ (j : ℤ) := by exact_mod_cast hij
    have : ((i : ℤ) + 1) * s ≤ (j : ℤ) * s :=
      mul_le_mul_of_nonneg_right hij1 (le_of_lt hs0)
    have hminle : min (((i : ℤ) + 1) * s) p ≤ ((i : ℤ) + 1) * s := min_le_left _ _
    linarith
  · -- the page counts sum to p
    have hbridge : ∀ (f : ℕ → ℤ) (k : ℕ),
        ((List.range k).map f).sum = ∑ x ∈ Finset.range k, f x := by
      intro f k
      induction k with
      | zero => simp
      | succ k ih =>
        rw [List.range_succ, List.map_append, List.sum_append, Finset.sum_range_succ, ih]
        simp
    have hmap : (partsFor p s).map PartRange.pageCount
        = (List.range (totalPartsZ p s).toNat).map
            (fun i : ℕ => min (((i : ℤ) + 1) * s) p - (i : ℤ) * s) := by
      simp only [partsFor, List.map_map]
      rfl
    rw [hmap, hbridge]
    have hterm : ∀ x ∈ Finset.range (totalPartsZ p s).toNat,
        min (((x : ℤ) + 1) * s) p - (x : ℤ) * s
          = (fun i : ℕ => min ((i : ℤ) * s) p) (x + 1)
            - (fun i : ℕ => min ((i : ℤ) * s) p) x := by
      intro x hx
      have hxlt : (x : ℤ) < totalPartsZ p s := by
        have := Finset.mem_range.mp hx
        have h2 : (x : ℤ) < ((totalPartsZ p s).toNat : ℤ) := by exact_mod_cast this
        rwa [Int.toNat_of_nonneg (le_of_lt hpos)] at h2
      have hxs : (x : ℤ) * s < p := hkey x hxlt
      simp only
      rw [min_eq_left (le_of_lt hxs)]
      push_cast
      ring_nf
    rw [Finset.sum_congr rfl hterm, Finset.sum_range_sub (fun i : ℕ => min ((i : ℤ) * s) p)]
    have hcast : (((totalPartsZ p s).toNat : ℤ)) = totalPartsZ p s :=
      Int.toNat_of_nonneg (le_of_lt hpos)
    simp only [Nat.cast_zero, zero_mul, hcast]
    rw [min_eq_right hple, min_eq_left (le_of_lt hp)]
    ring

/-- Witness for C1: the theorem applied to a 10-page document split 3 pages
per part, whose four parts' page counts sum to 10. -/
theorem partitioner_correct_witness :
    (0 : ℤ) < 10 ∧ (1 : ℤ) ≤ 3 ∧ ((partsFor 10 3).map PartRange.pageCount).sum = 10 :=
  ⟨by decide, by decide,
    (partitioner_correct 10 3 (by decide) (by decide)).2.2.2.2.2.2.2.2.2⟩

end PdfWorker
